import Mathlib

/-!
Verification of the D-1 sales simulator core
(`src/d1_sales_simulator.py`, `src/verify_simulation.py`).

The Python code is shallowly embedded: `datetime.datetime` values become
pairs of a proleptic-Gregorian day ordinal and a microsecond-of-day count
(matching CPython's representation and resolution), stored-function calls
against the database become oracle functions supplied as parameters, and
the transactional control flow of `start_simulation` becomes an explicit
event trace (database calls, commit, rollback, log-write attempt).
Monetary totals are embedded as exact rationals.
-/

namespace D1Sim

/-- Decidable equality for `Except`, needed to evaluate concrete runs. -/
def exceptEqDec {ε α : Type} [DecidableEq ε] [DecidableEq α] :
    (a b : Except ε α) → Decidable (a = b)
  | .ok x, .ok y =>
    if h : x = y then .isTrue (by rw [h]) else .isFalse (by intro hc; cases hc; exact h rfl)
  | .error x, .error y =>
    if h : x = y then .isTrue (by rw [h]) else .isFalse (by intro hc; cases hc; exact h rfl)
  | .ok _, .error _ => .isFalse (by intro hc; cases hc)
  | .error _, .ok _ => .isFalse (by intro hc; cases hc)

instance {ε α : Type} [DecidableEq ε] [DecidableEq α] : DecidableEq (Except ε α) :=
  exceptEqDec

/-! ## Python `datetime` model

CPython's `datetime.date` is internally a proleptic Gregorian ordinal
(`date.toordinal`); `datetime.datetime` adds a time-of-day with
microsecond resolution.  `datetime.time.min` is `00:00:00` and
`datetime.time.max` is `23:59:59.999999`. -/

/-- A `datetime.datetime` value: the day's proleptic Gregorian ordinal and
the microseconds elapsed since that day's midnight (`0 ≤ usec < 86400000000`). -/
structure PyDateTime where
  ordinal : Int
  usec : Nat
deriving DecidableEq, Repr

/-- Gregorian leap-year test, as in CPython's `datetime._is_leap`. -/
def isLeap (y : Nat) : Bool :=
  y % 4 == 0 && (y % 100 != 0 || y % 400 == 0)

/-- Days in a month, as in CPython's `datetime._days_in_month`. -/
def daysInMonth (y m : Nat) : Nat :=
  if m = 2 then (if isLeap y then 29 else 28)
  else if m = 4 ∨ m = 6 ∨ m = 9 ∨ m = 11 then 30
  else 31

/-- Days before January 1 of year `y`, as in CPython's `datetime._days_before_year`. -/
def daysBeforeYear (y : Nat) : Nat :=
  (y - 1) * 365 + (y - 1) / 4 - (y - 1) / 100 + (y - 1) / 400

/-- Days in year `y` preceding the first of month `m`. -/
def daysBeforeMonth (y : Nat) : Nat → Nat
  | 0 => 0
  | m + 1 => daysBeforeMonth y m + (if m = 0 then 0 else daysInMonth y m)

/-- CPython's `date(y, m, d).toordinal()`. -/
def toordinal (y m d : Nat) : Int :=
  ((daysBeforeYear y + daysBeforeMonth y m + d : Nat) : Int)

/-- Microseconds in one calendar day. -/
def usecPerDay : Nat := 86400000000

/-- Microseconds of `datetime.time.max`, i.e. `23:59:59.999999`. -/
def timeMaxUsec : Nat := 86399999999

/-- Signed difference `a - b` in microseconds, i.e. a Python `timedelta`. -/
def usecDiff (a b : PyDateTime) : Int :=
  (a.ordinal - b.ordinal) * (usecPerDay : Int) + (a.usec : Int) - (b.usec : Int)

/-- `d + timedelta(seconds := s)` at microsecond resolution. -/
def addSeconds (d : PyDateTime) (s : Nat) : PyDateTime :=
  let total : Nat := d.usec + s * 1000000
  { ordinal := d.ordinal + (total / usecPerDay : Nat), usec := total % usecPerDay }

/-- `get_d1_date_range` from `d1_sales_simulator.py`: given the ordinal of
`datetime.date.today()`, returns `(datetime.combine(yesterday, time.min),
datetime.combine(yesterday, time.max))`. -/
def get_d1_date_range (todayOrdinal : Int) : PyDateTime × PyDateTime :=
  let yesterday := todayOrdinal - 1
  ({ ordinal := yesterday, usec := 0 }, { ordinal := yesterday, usec := timeMaxUsec })

/-! ## Batch operation executor

The three stored functions are external database code; they are embedded
as oracles mapping the call index to the value `cur.fetchone()` yields,
or to a raised database error. -/

/-- A database error raised by a stored-function call (`psycopg.Error`). -/
structure DbErr where
  msg : String
deriving DecidableEq, Repr

/-- One `cur.execute` invocation of a stored function, with its argument. -/
inductive DbCall where
  | deleteSale (dateOrdinal : Int)
  | updateSale (dateOrdinal : Int)
  | newSale (timestamp : PyDateTime)
deriving DecidableEq, Repr

/-- Whether a call is a `simulate_delete_sale` invocation. -/
def DbCall.isDelete : DbCall → Bool
  | .deleteSale _ => true
  | _ => false

/-- Whether a call is a `simulate_update_sale` invocation. -/
def DbCall.isUpdate : DbCall → Bool
  | .updateSale _ => true
  | _ => false

/-- Whether a call is a `simulate_new_sale` invocation. -/
def DbCall.isNew : DbCall → Bool
  | .newSale _ => true
  | _ => false

/-- One operation record, as appended to the `operations` log list.
Delete/update records carry no `total` (the dictionary has no such key),
insert records carry `some` total. -/
structure Operation where
  type : String
  invoice_id : Int
  total : Option Rat := none
  timestamp : PyDateTime
deriving DecidableEq, Repr

/-- The external collaborators of one run: the three stored functions
(call index ↦ fetched value or raised error) and `random.randint`'s
underlying entropy (call index ↦ raw draw, reduced mod the range size). -/
structure BatchOracle where
  deleteFn : Nat → Except DbErr (Option Int)
  updateFn : Nat → Except DbErr (Option Int)
  insertFn : Nat → Except DbErr (Option (Int × Rat))
  rand : Nat → Nat

/-- Python truthiness of the fetched id: `if deleted_id:` is false for
`None` and for `0`. -/
def pyTruthy : Option Int → Bool
  | none => false
  | some v => v != 0

/-- `_perform_deletes` from `d1_sales_simulator.py`: loop of `num_deletes`
stored-function calls; a record is appended only when the fetched id is
truthy, otherwise only a warning is logged.  Returns the calls issued and
either the record list or the first raised error. -/
def _perform_deletes (f : Nat → Except DbErr (Option Int)) (simulation_date : PyDateTime) :
    Nat → Nat → List DbCall × Except DbErr (List Operation)
  | 0, _ => ([], .ok [])
  | n + 1, i =>
    match f i with
    | .error e => ([DbCall.deleteSale simulation_date.ordinal], .error e)
    | .ok deleted_id =>
      let rest := _perform_deletes f simulation_date n (i + 1)
      (DbCall.deleteSale simulation_date.ordinal :: rest.1,
        match rest.2 with
        | .error e => .error e
        | .ok l =>
          .ok (if pyTruthy deleted_id then
            { type := "delete", invoice_id := deleted_id.getD 0,
              timestamp := simulation_date } :: l
          else l))

/-- `_perform_updates` from `d1_sales_simulator.py`, symmetric to
`_perform_deletes`. -/
def _perform_updates (f : Nat → Except DbErr (Option Int)) (simulation_date : PyDateTime) :
    Nat → Nat → List DbCall × Except DbErr (List Operation)
  | 0, _ => ([], .ok [])
  | n + 1, i =>
    match f i with
    | .error e => ([DbCall.updateSale simulation_date.ordinal], .error e)
    | .ok updated_id =>
      let rest := _perform_updates f simulation_date n (i + 1)
      (DbCall.updateSale simulation_date.ordinal :: rest.1,
        match rest.2 with
        | .error e => .error e
        | .ok l =>
          .ok (if pyTruthy updated_id then
            { type := "update", invoice_id := updated_id.getD 0,
              timestamp := simulation_date } :: l
          else l))

/-- The loop body of `_perform_inserts`: each iteration draws
`random_seconds = randint(0, time_diff_seconds)`, calls
`simulate_new_sale(timestamp)`, and appends an insert record only when the
function returned a row. -/
def performInsertsLoop (f : Nat → Except DbErr (Option (Int × Rat))) (rand : Nat → Nat)
    (start_date : PyDateTime) (time_diff_seconds : Nat) :
    Nat → Nat → List DbCall × Except DbErr (List Operation)
  | 0, _ => ([], .ok [])
  | n + 1, i =>
    let random_seconds := rand i % (time_diff_seconds + 1)
    let timestamp := addSeconds start_date random_seconds
    match f i with
    | .error e => ([DbCall.newSale timestamp], .error e)
    | .ok result =>
      let rest := performInsertsLoop f rand start_date time_diff_seconds n (i + 1)
      (DbCall.newSale timestamp :: rest.1,
        match rest.2 with
        | .error e => .error e
        | .ok l =>
          match result with
          | some (invoice_id, total) =>
            .ok ({ type := "insert", invoice_id := invoice_id, total := some total,
                   timestamp := timestamp } :: l)
          | none => .ok l)

/-- `_perform_inserts` from `d1_sales_simulator.py`: recomputes the D-1
window, takes `time_diff_seconds = int((end - start).total_seconds())`,
then runs the insert loop. -/
def _perform_inserts (f : Nat → Except DbErr (Option (Int × Rat))) (rand : Nat → Nat)
    (todayOrdinal : Int) (num_inserts : Nat) : List DbCall × Except DbErr (List Operation) :=
  let range := get_d1_date_range todayOrdinal
  let time_diff_seconds : Nat := ((usecDiff range.2 range.1) / 1000000).toNat
  performInsertsLoop f rand range.1 time_diff_seconds num_inserts 0

/-- `process_operations_batch` from `d1_sales_simulator.py`: deletes, then
updates, then inserts, with `simulation_date_for_mods` the start of D-1;
records are concatenated in that order.  An error from any call aborts the
batch, keeping the trace of calls issued so far. -/
def process_operations_batch (o : BatchOracle) (todayOrdinal : Int)
    (num_inserts num_updates num_deletes : Nat) :
    List DbCall × Except DbErr (List Operation) :=
  let simulation_date_for_mods := (get_d1_date_range todayOrdinal).1
  let pd := _perform_deletes o.deleteFn simulation_date_for_mods num_deletes 0
  match pd.2 with
  | .error e => (pd.1, .error e)
  | .ok delOps =>
    let pu := _perform_updates o.updateFn simulation_date_for_mods num_updates 0
    match pu.2 with
    | .error e => (pd.1 ++ pu.1, .error e)
    | .ok updOps =>
      let pi := _perform_inserts o.insertFn o.rand todayOrdinal num_inserts
      match pi.2 with
      | .error e => (pd.1 ++ pu.1 ++ pi.1, .error e)
      | .ok insOps => (pd.1 ++ pu.1 ++ pi.1, .ok (delOps ++ updOps ++ insOps))

/-! ## Database state validator -/

/-- The three stored functions `validate_database_state` requires. -/
def requiredFunctions : List String :=
  ["simulate_new_sale", "simulate_update_sale", "simulate_delete_sale"]

/-- The errors `validate_database_state` can raise.  The first names the
missing functions in its message; the second is the fixed message
`Required sequences not found. Please run 'uv run main.py setup'.`,
which names no specific object. -/
inductive ValidationError where
  | missingFunctions (missing : List String)
  | sequencesNotFound
deriving DecidableEq, Repr

/-- The database-object names a `ValidationError`'s message mentions. -/
def namedObjects : ValidationError → List String
  | .missingFunctions missing => missing
  | .sequencesNotFound => []

/-- `validate_database_state` from `d1_sales_simulator.py`: first checks
that all three functions are present (raising with the set of missing
names otherwise), then checks the two sequences (raising a generic
message otherwise). -/
def validate_database_state (foundFunctions foundSequences : List String) :
    Except ValidationError Unit :=
  let missing := requiredFunctions.filter (fun f => !(foundFunctions.contains f))
  if missing.isEmpty then
    if foundSequences.contains "invoice_id_seq" && foundSequences.contains "invoice_line_id_seq" then
      .ok ()
    else
      .error ValidationError.sequencesNotFound
  else
    .error (ValidationError.missingFunctions missing)

/-! ## Operation log writer -/

/-- The wall-clock instant `datetime.datetime.now(timezone.utc)` read at
run start, with the fields `strftime` renders. -/
structure Instant where
  year : Nat
  month : Nat
  day : Nat
  hour : Nat
  minute : Nat
  second : Nat
deriving DecidableEq, Repr

/-- Zero-padded two-digit rendering, as `strftime` does. -/
def pad2 (n : Nat) : String :=
  if n < 10 then "0" ++ toString n else toString n

/-- Zero-padded four-digit rendering for `%Y`. -/
def pad4 (n : Nat) : String :=
  if n < 10 then "000" ++ toString n
  else if n < 100 then "00" ++ toString n
  else if n < 1000 then "0" ++ toString n
  else toString n

/-- The log file name
`f"simulation_{start_time.strftime('%Y-%m-%d_%H-%M-%S')}.toml"`:
a pure function of the run-start instant. -/
def logFilename (t : Instant) : String :=
  "simulation_" ++ pad4 t.year ++ "-" ++ pad2 t.month ++ "-" ++ pad2 t.day ++ "_" ++
    pad2 t.hour ++ "-" ++ pad2 t.minute ++ "-" ++ pad2 t.second ++ ".toml"

/-- The per-type counts of the `simulation_summary.counts` table. -/
structure LogSummary where
  inserts : Nat
  updates : Nat
  deletes : Nat
deriving DecidableEq, Repr

/-- The document `write_log_file` serializes to TOML. -/
structure LogData where
  d1_date : Int
  simulation_timestamp_utc : Instant
  counts : LogSummary
  operations : List Operation
deriving DecidableEq, Repr

/-- Builds the log document from the operation list, counting each type
exactly as the three `sum(1 for op in operations if ...)` expressions do. -/
def mkLogData (start_time : Instant) (operations : List Operation) (d1_date : Int) : LogData :=
  { d1_date := d1_date,
    simulation_timestamp_utc := start_time,
    counts :=
      { inserts := operations.countP (fun op => op.type == "insert"),
        updates := operations.countP (fun op => op.type == "update"),
        deletes := operations.countP (fun op => op.type == "delete") },
    operations := operations }

/-- The `open`/`toml.dump` step, which either succeeds or raises; `fsOk`
models whether the filesystem accepts the write. -/
def tryWriteFile (fsOk : Bool) (path : String) (_data : LogData) : Except String String :=
  if fsOk then .ok path else .error "write failed"

/-- `write_log_file` from `d1_sales_simulator.py`: attempts the write and
catches any exception (`except Exception as e: logger.error(...)`),
returning normally either way; `some path` if the artifact exists
afterwards, `none` if not. -/
def write_log_file (fsOk : Bool) (start_time : Instant) (operations : List Operation)
    (d1_date : Int) : Option String :=
  match tryWriteFile fsOk (logFilename start_time) (mkLogData start_time operations d1_date) with
  | .ok path => some path
  | .error _ => none

/-! ## The simulation run -/

/-- Observable events of one `start_simulation` run, in program order. -/
inductive RunEvent where
  | dbCall (c : DbCall)
  | commit
  | rollback
  | logWriteAttempt (filename : String) (succeeded : Bool)
deriving DecidableEq, Repr

/-- Whether an event is the `conn.commit()` call. -/
def RunEvent.isCommit : RunEvent → Bool
  | .commit => true
  | _ => false

/-- Whether an event is the `conn.rollback()` call. -/
def RunEvent.isRollback : RunEvent → Bool
  | .rollback => true
  | _ => false

/-- Whether an event is a `write_log_file` invocation. -/
def RunEvent.isLogWrite : RunEvent → Bool
  | .logWriteAttempt _ _ => true
  | _ => false

/-- The observable outcome of one `start_simulation` run: the process exit
status (`0` on normal return, `1` via `sys.exit(1)`), and the ordered
event trace. -/
structure RunResult where
  exitCode : Nat
  events : List RunEvent
deriving DecidableEq, Repr

/-- `start_simulation` from `d1_sales_simulator.py`: validates, runs the
batch in one transaction, commits and then writes the log on success;
on any exception during the batch rolls back and exits 1; a validation
failure propagates to the outer handler and exits 1 before any cursor
work. -/
def start_simulation (foundFunctions foundSequences : List String) (o : BatchOracle)
    (fsOk : Bool) (simulation_start_time : Instant) (todayOrdinal : Int)
    (num_inserts num_updates num_deletes : Nat) : RunResult :=
  let d1_date := (get_d1_date_range todayOrdinal).1.ordinal
  match validate_database_state foundFunctions foundSequences with
  | .error _ => { exitCode := 1, events := [] }
  | .ok _ =>
    let batch := process_operations_batch o todayOrdinal num_inserts num_updates num_deletes
    match batch.2 with
    | .error _ =>
      { exitCode := 1, events := batch.1.map RunEvent.dbCall ++ [RunEvent.rollback] }
    | .ok operations =>
      { exitCode := 0,
        events := batch.1.map RunEvent.dbCall ++
          [RunEvent.commit,
           RunEvent.logWriteAttempt (logFilename simulation_start_time)
             (write_log_file fsOk simulation_start_time operations d1_date).isSome] }

/-! ## Log-based verifier (`verify_simulation.py`) -/

/-- One file in the `simulation_logs` directory: its name, its
modification time, and the `operations` list its TOML content parses to. -/
structure LogEntry where
  name : String
  mtime : Nat
  operations : List Operation
deriving DecidableEq, Repr

/-- Python's `max(log_files, key=lambda p: p.stat().st_mtime)`: first
maximal element by `mtime`. -/
def maxByMtime (best : LogEntry) : List LogEntry → LogEntry
  | [] => best
  | x :: xs => maxByMtime (if x.mtime > best.mtime then x else best) xs

/-- `find_latest_log_file` from `verify_simulation.py`: returns `None`
(after logging an error) when the directory is missing or holds no
`simulation_*.toml` file, else the most recently modified file. -/
def find_latest_log_file (dirExists : Bool) (files : List LogEntry) : Option LogEntry :=
  if !dirExists then none
  else
    match files with
    | [] => none
    | f :: rest => some (maxByMtime f rest)

/-- The insert check of `verify_simulation_results`: fetch the row's
`Total`; fail if absent, fail if
`abs(result[0] - Decimal(str(op['total']))) > Decimal('0.001')`,
succeed otherwise. -/
def checkInsert (db : Int → Option Rat) (op : Operation) : Bool :=
  match db op.invoice_id with
  | none => false
  | some stored => if |stored - op.total.getD 0| > 1/1000 then false else true

/-- The delete check: fail if a row with the logged id still exists. -/
def checkDelete (db : Int → Option Rat) (op : Operation) : Bool :=
  match db op.invoice_id with
  | some _ => false
  | none => true

/-- The update check: succeed exactly when a row with the logged id
exists (existence only). -/
def checkUpdate (db : Int → Option Rat) (op : Operation) : Bool :=
  (db op.invoice_id).isSome

/-- One verification loop: threads the `success_count`/`fail_count`
accumulators over the operations, one database query per operation,
never aborting early. -/
def runChecks (check : Operation → Bool) : List Operation → Nat → Nat → Nat × Nat
  | [], s, f => (s, f)
  | op :: rest, s, f =>
    if check op then runChecks check rest (s + 1) f else runChecks check rest s (f + 1)

/-- The environment one verifier run observes: the logs directory, the
connection outcome, and the `"Invoice"` table (`InvoiceId ↦ Total`). -/
structure VerifyEnv where
  dirExists : Bool
  files : List LogEntry
  connOk : Bool
  db : Int → Option Rat

/-- The observable outcome of one verifier run. -/
structure VerifyResult where
  exitCode : Nat
  dbQueries : Nat
  successCount : Nat
  failCount : Nat
  fullSuccessReported : Bool
  failureReported : Bool
  mismatchesEmitted : Nat
deriving DecidableEq, Repr

/-- `verify_simulation_results` from `verify_simulation.py`: locate the
latest log (returning normally, exit status 0, if none), partition its
operations, check inserts then deletes then updates against the live
table, and log either the full-success line or the aggregate failure
line; connection errors exit 1. -/
def verify_simulation_results (env : VerifyEnv) : VerifyResult :=
  match find_latest_log_file env.dirExists env.files with
  | none =>
    { exitCode := 0, dbQueries := 0, successCount := 0, failCount := 0,
      fullSuccessReported := false, failureReported := false, mismatchesEmitted := 0 }
  | some logFile =>
    if env.connOk then
      let operations := logFile.operations
      let inserts := operations.filter (fun op => op.type == "insert")
      let updates := operations.filter (fun op => op.type == "update")
      let deletes := operations.filter (fun op => op.type == "delete")
      let p1 := runChecks (checkInsert env.db) inserts 0 0
      let p2 := runChecks (checkDelete env.db) deletes p1.1 p1.2
      let p3 := runChecks (checkUpdate env.db) updates p2.1 p2.2
      { exitCode := 0,
        dbQueries := inserts.length + deletes.length + updates.length,
        successCount := p3.1,
        failCount := p3.2,
        fullSuccessReported := p3.2 == 0,
        failureReported := !(p3.2 == 0),
        mismatchesEmitted := p3.2 }
    else
      { exitCode := 1, dbQueries := 0, successCount := 0, failCount := 0,
        fullSuccessReported := false, failureReported := false, mismatchesEmitted := 0 }

/-! ## Specification-side measures

These definitions follow the spec's wording, for comparison with the
source-derived definitions above. -/

/-- Whether a delete/update stored-function call yielded a truthy id
(an "effective" operation in the spec's sense). -/
def callTruthy (r : Except DbErr (Option Int)) : Bool :=
  match r with
  | .ok v => pyTruthy v
  | .error _ => false

/-- Whether an insert stored-function call returned a row. -/
def callReturnedRow (r : Except DbErr (Option (Int × Rat))) : Bool :=
  match r with
  | .ok v => v.isSome
  | .error _ => false

/-- Number of indices `i, start ≤ i < start + n`, where `g i` holds. -/
def countHits (g : Nat → Bool) : Nat → Nat → Nat
  | 0, _ => 0
  | n + 1, i => (if g i then 1 else 0) + countHits g n (i + 1)

/-! ## Concrete instances used to evaluate the model -/

/-- Both required sequences, present. -/
def goodSequences : List String := ["invoice_id_seq", "invoice_line_id_seq"]

/-- A function catalog missing `simulate_delete_sale`. -/
def missingOneFn : List String := ["simulate_new_sale", "simulate_update_sale"]

/-- Scenario D oracle: the insert stored function raises a database error
on its 3rd call; deletes and updates succeed. -/
def scenarioDOracle : BatchOracle :=
  { deleteFn := fun _ => .ok (some 11), updateFn := fun _ => .ok (some 12),
    insertFn := fun i => if i == 2 then .error { msg := "db error" } else .ok (some (13, 10)),
    rand := fun _ => 0 }

/-- An oracle on which every stored-function call succeeds with a row. -/
def allOkOracle : BatchOracle :=
  { deleteFn := fun _ => .ok (some 1), updateFn := fun _ => .ok (some 2),
    insertFn := fun _ => .ok (some (3, 5)), rand := fun _ => 0 }

/-- An oracle whose update call reports no eligible row (`NULL`). -/
def mixedOracle : BatchOracle :=
  { deleteFn := fun _ => .ok (some 7), updateFn := fun _ => .ok none,
    insertFn := fun _ => .ok (some (8, 3)), rand := fun _ => 0 }

/-- A fixed run-start instant. -/
def demoInstant : Instant :=
  { year := 2024, month := 3, day := 15, hour := 10, minute := 0, second := 0 }

/-- The operation list `process_operations_batch allOkOracle 1 1 1 1`
produces. -/
def demoOps : List Operation :=
  [{ type := "delete", invoice_id := 1, timestamp := { ordinal := 0, usec := 0 } },
   { type := "update", invoice_id := 2, timestamp := { ordinal := 0, usec := 0 } },
   { type := "insert", invoice_id := 3, total := some 5,
     timestamp := { ordinal := 0, usec := 0 } }]

/-- The operation list `process_operations_batch mixedOracle 1 1 1 1`
produces: the no-op update leaves no record. -/
def demoMixedOps : List Operation :=
  [{ type := "delete", invoice_id := 7, timestamp := { ordinal := 0, usec := 0 } },
   { type := "insert", invoice_id := 8, total := some 3,
     timestamp := { ordinal := 0, usec := 0 } }]

/-- A verifier environment with no log directory. -/
def noLogEnv : VerifyEnv :=
  { dirExists := false, files := [], connOk := true, db := fun _ => none }

/-- A log file holding one insert record with total 10. -/
def demoLogEntry : LogEntry :=
  { name := "simulation_b.toml", mtime := 5,
    operations := [{ type := "insert", invoice_id := 2, total := some 10,
                     timestamp := { ordinal := 0, usec := 0 } }] }

/-- A verifier environment whose database matches `demoLogEntry`. -/
def passEnv : VerifyEnv :=
  { dirExists := true, files := [demoLogEntry], connOk := true, db := fun _ => some 10 }

/-- A logged insert record with total 10. -/
def demoInsertOp : Operation :=
  { type := "insert", invoice_id := 1, total := some 10,
    timestamp := { ordinal := 0, usec := 0 } }

/-! ## Helper lemmas -/

theorem countHits_le (g : Nat → Bool) : ∀ n i, countHits g n i ≤ n := by
  intro n
  induction n with
  | zero => intro i; simp [countHits]
  | succ n ih =>
    intro i
    have := ih (i + 1)
    by_cases h : g i <;> simp [countHits, h] <;> omega

theorem runChecks_sum (check : Operation → Bool) :
    ∀ (l : List Operation) (s f : Nat),
      (runChecks check l s f).1 + (runChecks check l s f).2 = s + f + l.length := by
  intro l
  induction l with
  | nil => intro s f; simp [runChecks]
  | cons op rest ih =>
    intro s f
    by_cases h : check op <;> simp [runChecks, h, ih] <;> omega

theorem perform_deletes_len (f : Nat → Except DbErr (Option Int)) (d : PyDateTime) :
    ∀ n i l, (_perform_deletes f d n i).2 = .ok l →
      l.length = countHits (fun j => callTruthy (f j)) n i := by
  intro n
  induction n with
  | zero =>
    intro i l h
    simp [_perform_deletes] at h
    simp [← h, countHits]
  | succ n ih =>
    intro i l h
    simp only [_perform_deletes] at h
    cases hf : f i with
    | error e => rw [hf] at h; simp at h
    | ok r =>
      rw [hf] at h
      simp only at h
      cases hrest : (_perform_deletes f d n (i + 1)).2 with
      | error e => rw [hrest] at h; simp at h
      | ok l2 =>
        rw [hrest] at h
        simp only [Except.ok.injEq] at h
        have hlen := ih (i + 1) l2 hrest
        cases hpt : pyTruthy r <;> rw [hpt] at h <;> simp at h <;>
          simp [← h, countHits, callTruthy, hf, hpt, hlen] <;> omega

theorem perform_updates_len (f : Nat → Except DbErr (Option Int)) (d : PyDateTime) :
    ∀ n i l, (_perform_updates f d n i).2 = .ok l →
      l.length = countHits (fun j => callTruthy (f j)) n i := by
  intro n
  induction n with
  | zero =>
    intro i l h
    simp [_perform_updates] at h
    simp [← h, countHits]
  | succ n ih =>
    intro i l h
    simp only [_perform_updates] at h
    cases hf : f i with
    | error e => rw [hf] at h; simp at h
    | ok r =>
      rw [hf] at h
      simp only at h
      cases hrest : (_perform_updates f d n (i + 1)).2 with
      | error e => rw [hrest] at h; simp at h
      | ok l2 =>
        rw [hrest] at h
        simp only [Except.ok.injEq] at h
        have hlen := ih (i + 1) l2 hrest
        cases hpt : pyTruthy r <;> rw [hpt] at h <;> simp at h <;>
          simp [← h, countHits, callTruthy, hf, hpt, hlen] <;> omega

theorem performInsertsLoop_len (f : Nat → Except DbErr (Option (Int × Rat))) (rand : Nat → Nat)
    (sd : PyDateTime) (tds : Nat) :
    ∀ n i l, (performInsertsLoop f rand sd tds n i).2 = .ok l →
      l.length = countHits (fun j => callReturnedRow (f j)) n i := by
  intro n
  induction n with
  | zero =>
    intro i l h
    simp [performInsertsLoop] at h
    simp [← h, countHits]
  | succ n ih =>
    intro i l h
    simp only [performInsertsLoop] at h
    cases hf : f i with
    | error e => rw [hf] at h; simp at h
    | ok r =>
      rw [hf] at h
      simp only at h
      cases hrest : (performInsertsLoop f rand sd tds n (i + 1)).2 with
      | error e => rw [hrest] at h; simp at h
      | ok l2 =>
        rw [hrest] at h
        have hlen := ih (i + 1) l2 hrest
        cases r with
        | none =>
          simp only [Except.ok.injEq] at h
          simp [← h, countHits, callReturnedRow, hf, hlen]
        | some p =>
          simp only [Except.ok.injEq] at h
          simp [← h, countHits, callReturnedRow, hf, hlen]
          omega

theorem perform_deletes_calls (f : Nat → Except DbErr (Option Int)) (d : PyDateTime) :
    ∀ n i c, c ∈ (_perform_deletes f d n i).1 → c.isDelete = true := by
  intro n
  induction n with
  | zero => intro i c hc; simp [_perform_deletes] at hc
  | succ n ih =>
    intro i c hc
    simp only [_perform_deletes] at hc
    cases hf : f i with
    | error e => rw [hf] at hc; simp at hc; rw [hc]; rfl
    | ok r =>
      rw [hf] at hc
      simp only [List.mem_cons] at hc
      rcases hc with hc | hc
      · rw [hc]; rfl
      · exact ih (i + 1) c hc

theorem perform_updates_calls (f : Nat → Except DbErr (Option Int)) (d : PyDateTime) :
    ∀ n i c, c ∈ (_perform_updates f d n i).1 → c.isUpdate = true := by
  intro n
  induction n with
  | zero => intro i c hc; simp [_perform_updates] at hc
  | succ n ih =>
    intro i c hc
    simp only [_perform_updates] at hc
    cases hf : f i with
    | error e => rw [hf] at hc; simp at hc; rw [hc]; rfl
    | ok r =>
      rw [hf] at hc
      simp only [List.mem_cons] at hc
      rcases hc with hc | hc
      · rw [hc]; rfl
      · exact ih (i + 1) c hc

theorem performInsertsLoop_calls (f : Nat → Except DbErr (Option (Int × Rat))) (rand : Nat → Nat)
    (sd : PyDateTime) (tds : Nat) :
    ∀ n i c, c ∈ (performInsertsLoop f rand sd tds n i).1 → c.isNew = true := by
  intro n
  induction n with
  | zero => intro i c hc; simp [performInsertsLoop] at hc
  | succ n ih =>
    intro i c hc
    simp only [performInsertsLoop] at hc
    cases hf : f i with
    | error e => rw [hf] at hc; simp at hc; rw [hc]; rfl
    | ok r =>
      rw [hf] at hc
      simp only [List.mem_cons] at hc
      rcases hc with hc | hc
      · rw [hc]; rfl
      · exact ih (i + 1) c hc

theorem perform_deletes_types (f : Nat → Except DbErr (Option Int)) (d : PyDateTime) :
    ∀ n i l, (_perform_deletes f d n i).2 = .ok l → ∀ x ∈ l, x.type = "delete" := by
  intro n
  induction n with
  | zero =>
    intro i l h
    simp [_perform_deletes] at h
    subst h
    intro x hx
    exact absurd hx (List.not_mem_nil x)
  | succ n ih =>
    intro i l h
    simp only [_perform_deletes] at h
    cases hf : f i with
    | error e => rw [hf] at h; simp at h
    | ok r =>
      rw [hf] at h
      simp only at h
      cases hrest : (_perform_deletes f d n (i + 1)).2 with
      | error e => rw [hrest] at h; simp at h
      | ok l2 =>
        rw [hrest] at h
        simp only [Except.ok.injEq] at h
        have hrec := ih (i + 1) l2 hrest
        cases hpt : pyTruthy r <;> rw [hpt] at h <;> simp at h
        · exact h ▸ hrec
        · intro x hx
          rw [← h] at hx
          rcases List.mem_cons.mp hx with hx | hx
          · rw [hx]
          · exact hrec x hx

theorem perform_updates_types (f : Nat → Except DbErr (Option Int)) (d : PyDateTime) :
    ∀ n i l, (_perform_updates f d n i).2 = .ok l → ∀ x ∈ l, x.type = "update" := by
  intro n
  induction n with
  | zero =>
    intro i l h
    simp [_perform_updates] at h
    subst h
    intro x hx
    exact absurd hx (List.not_mem_nil x)
  | succ n ih =>
    intro i l h
    simp only [_perform_updates] at h
    cases hf : f i with
    | error e => rw [hf] at h; simp at h
    | ok r =>
      rw [hf] at h
      simp only at h
      cases hrest : (_perform_updates f d n (i + 1)).2 with
      | error e => rw [hrest] at h; simp at h
      | ok l2 =>
        rw [hrest] at h
        simp only [Except.ok.injEq] at h
        have hrec := ih (i + 1) l2 hrest
        cases hpt : pyTruthy r <;> rw [hpt] at h <;> simp at h
        · exact h ▸ hrec
        · intro x hx
          rw [← h] at hx
          rcases List.mem_cons.mp hx with hx | hx
          · rw [hx]
          · exact hrec x hx

theorem performInsertsLoop_types (f : Nat → Except DbErr (Option (Int × Rat))) (rand : Nat → Nat)
    (sd : PyDateTime) (tds : Nat) :
    ∀ n i l, (performInsertsLoop f rand sd tds n i).2 = .ok l → ∀ x ∈ l, x.type = "insert" := by
  intro n
  induction n with
  | zero =>
    intro i l h
    simp [performInsertsLoop] at h
    subst h
    intro x hx
    exact absurd hx (List.not_mem_nil x)
  | succ n ih =>
    intro i l h
    simp only [performInsertsLoop] at h
    cases hf : f i with
    | error e => rw [hf] at h; simp at h
    | ok r =>
      rw [hf] at h
      simp only at h
      cases hrest : (performInsertsLoop f rand sd tds n (i + 1)).2 with
      | error e => rw [hrest] at h; simp at h
      | ok l2 =>
        rw [hrest] at h
        have hrec := ih (i + 1) l2 hrest
        cases r with
        | none =>
          simp only [Except.ok.injEq] at h
          exact h ▸ hrec
        | some p =>
          simp only [Except.ok.injEq] at h
          intro x hx
          rw [← h] at hx
          rcases List.mem_cons.mp hx with hx | hx
          · rw [hx]
          · exact hrec x hx

/-! ## Claim C4: the D-1 window resolver -/

/-- Claim C4 counterexample: resolving the window from today = 2024-03-15
does give `start = 2024-03-14T00:00:00`, but the window end is
`23:59:59.999999` (CPython's `time.max` has microsecond, not second,
resolution), so `end` is not the claimed `2024-03-14T23:59:59` and
`end - start` is not one day minus one second. -/
theorem c4_counterexample :
    (get_d1_date_range (toordinal 2024 3 15)).1 =
      { ordinal := toordinal 2024 3 14, usec := 0 } ∧
    (get_d1_date_range (toordinal 2024 3 15)).2.usec ≠ 86399000000 ∧
    usecDiff (get_d1_date_range (toordinal 2024 3 15)).2
        (get_d1_date_range (toordinal 2024 3 15)).1 ≠ 86400000000 - 1000000 := by
  refine ⟨by decide, by decide, by decide⟩

/-- Claim C4 (amended): for every resolution day, `get_d1_date_range`
returns `start` = midnight of the preceding calendar day and `end` = the
last microsecond-resolution instant `23:59:59.999999` of that same day, so
`end - start` is exactly one calendar day minus one microsecond; resolving
from today = 2024-03-15 yields `start = 2024-03-14T00:00:00` and
`end = 2024-03-14T23:59:59.999999`. -/
theorem c4_amended_window (todayOrdinal : Int) :
    (get_d1_date_range todayOrdinal).1.ordinal = todayOrdinal - 1 ∧
    (get_d1_date_range todayOrdinal).1.usec = 0 ∧
    (get_d1_date_range todayOrdinal).2.ordinal = todayOrdinal - 1 ∧
    (get_d1_date_range todayOrdinal).2.usec = timeMaxUsec ∧
    usecDiff (get_d1_date_range todayOrdinal).2 (get_d1_date_range todayOrdinal).1 =
      (usecPerDay : Int) - 1 ∧
    (get_d1_date_range (toordinal 2024 3 15)).1 =
      { ordinal := toordinal 2024 3 14, usec := 0 } ∧
    (get_d1_date_range (toordinal 2024 3 15)).2 =
      { ordinal := toordinal 2024 3 14, usec := 86399999999 } := by
  refine ⟨rfl, rfl, rfl, rfl, ?_, by decide, by decide⟩
  simp [usecDiff, get_d1_date_range, usecPerDay, timeMaxUsec]

/-! ## Claim C5: the database state validator -/

/-- Claim C5 counterexample: with all three functions present but the
sequence `invoice_id_seq` absent, `validate_database_state` raises the
generic sequences error whose message names no missing object at all —
it does not name every missing object.  Moreover, when both a function
and a sequence are missing, only the missing functions are named. -/
theorem c5_counterexample :
    validate_database_state requiredFunctions ["invoice_line_id_seq"] =
      .error ValidationError.sequencesNotFound ∧
    namedObjects ValidationError.sequencesNotFound = [] ∧
    validate_database_state ["simulate_update_sale", "simulate_delete_sale"] [] =
      .error (ValidationError.missingFunctions ["simulate_new_sale"]) ∧
    "invoice_id_seq" ∉ namedObjects (ValidationError.missingFunctions ["simulate_new_sale"]) := by
  refine ⟨by decide, by decide, by decide, by decide⟩

/-- Claim C5 (amended): the validator succeeds exactly when all three
required functions and both required sequences are present; on failure,
every missing function is named in the error, but a missing sequence is
never named (the sequence error message is generic, and missing functions
mask the sequence check entirely); after a failed validation,
`start_simulation` issues no database operation and exits non-zero. -/
theorem c5_amended_validator (foundFunctions foundSequences : List String) :
    (validate_database_state foundFunctions foundSequences = .ok () ↔
      ((∀ f ∈ requiredFunctions, f ∈ foundFunctions) ∧
        "invoice_id_seq" ∈ foundSequences ∧ "invoice_line_id_seq" ∈ foundSequences)) ∧
    (∀ e, validate_database_state foundFunctions foundSequences = .error e →
      ((∀ f ∈ requiredFunctions, f ∉ foundFunctions → f ∈ namedObjects e) ∧
        "invoice_id_seq" ∉ namedObjects e ∧ "invoice_line_id_seq" ∉ namedObjects e)) ∧
    (∀ (o : BatchOracle) (fsOk : Bool) (st : Instant) (todayOrdinal : Int)
        (nI nU nD : Nat) (e : ValidationError),
      validate_database_state foundFunctions foundSequences = .error e →
      (start_simulation foundFunctions foundSequences o fsOk st todayOrdinal nI nU nD).events
          = [] ∧
      (start_simulation foundFunctions foundSequences o fsOk st todayOrdinal nI nU nD).exitCode
          = 1) := by
  refine ⟨⟨?_, ?_⟩, ?_, ?_⟩
  · intro h
    simp only [validate_database_state] at h
    by_cases hm : (List.filter (fun f => !foundFunctions.contains f) requiredFunctions).isEmpty
        = true
    · rw [if_pos hm] at h
      by_cases hs : (foundSequences.contains "invoice_id_seq" &&
          foundSequences.contains "invoice_line_id_seq") = true
      · simp only [Bool.and_eq_true] at hs
        refine ⟨?_, ?_, ?_⟩
        · intro f hf
          by_contra hnf
          have hmem : f ∈ List.filter (fun g => !foundFunctions.contains g) requiredFunctions := by
            simp [List.mem_filter, hf, hnf]
          rw [List.isEmpty_iff.mp hm] at hmem
          simp at hmem
        · simpa using hs.1
        · simpa using hs.2
      · rw [if_neg hs] at h
        simp at h
    · rw [if_neg hm] at h
      simp at h
  · rintro ⟨hfns, h1, h2⟩
    have hm : (List.filter (fun f => !foundFunctions.contains f) requiredFunctions).isEmpty
        = true := by
      rw [List.isEmpty_iff]
      apply List.filter_eq_nil_iff.mpr
      intro a ha
      simp [hfns a ha]
    simp only [validate_database_state]
    rw [if_pos hm, if_pos (by simp [h1, h2])]
  · intro e he
    simp only [validate_database_state] at he
    by_cases hm : (List.filter (fun f => !foundFunctions.contains f) requiredFunctions).isEmpty
        = true
    · rw [if_pos hm] at he
      by_cases hs : (foundSequences.contains "invoice_id_seq" &&
          foundSequences.contains "invoice_line_id_seq") = true
      · rw [if_pos hs] at he
        simp at he
      · rw [if_neg hs] at he
        simp only [Except.error.injEq] at he
        subst he
        refine ⟨?_, by simp [namedObjects], by simp [namedObjects]⟩
        intro f hf hnf
        exfalso
        have hmem : f ∈ List.filter (fun g => !foundFunctions.contains g) requiredFunctions := by
          simp [List.mem_filter, hf, hnf]
        rw [List.isEmpty_iff.mp hm] at hmem
        simp at hmem
    · rw [if_neg hm] at he
      simp only [Except.error.injEq] at he
      subst he
      refine ⟨?_, ?_, ?_⟩
      · intro f hf hnf
        simp [namedObjects, List.mem_filter, hf, hnf]
      · simp only [namedObjects]
        intro hmem
        have := (List.mem_filter.mp hmem).1
        simp [requiredFunctions] at this
      · simp only [namedObjects]
        intro hmem
        have := (List.mem_filter.mp hmem).1
        simp [requiredFunctions] at this
  · intro o fsOk st todayOrdinal nI nU nD e he
    constructor <;> simp [start_simulation, he]

/-! ## Claim C6: verifier behaviour with no log -/

/-- Claim C6 counterexample: with no log directory present, the verifier
raises nothing — `find_latest_log_file` returns `None` after logging an
error, `verify_simulation_results` returns normally, the process exit
status is 0 (not non-zero as claimed), and no database query is
attempted. -/
theorem c6_counterexample :
    (verify_simulation_results
      { dirExists := false, files := [], connOk := true, db := fun _ => none }).exitCode = 0 ∧
    (verify_simulation_results
      { dirExists := false, files := [], connOk := true, db := fun _ => none }).dbQueries = 0 ∧
    find_latest_log_file false [] = none := by
  refine ⟨rfl, rfl, rfl⟩

/-- Claim C6 (amended): when the log directory is missing or holds no log
file, `find_latest_log_file` yields `None`, the verifier logs an error and
returns normally — the process exits with status 0, no
`NoLogFoundError`-style exception is raised — and no database query is
attempted. -/
theorem c6_amended_no_log (env : VerifyEnv)
    (h : env.dirExists = false ∨ env.files = []) :
    find_latest_log_file env.dirExists env.files = none ∧
    (verify_simulation_results env).exitCode = 0 ∧
    (verify_simulation_results env).dbQueries = 0 := by
  have hf : find_latest_log_file env.dirExists env.files = none := by
    rcases h with h | h
    · simp [find_latest_log_file, h]
    · rw [h]
      unfold find_latest_log_file
      by_cases hd : env.dirExists <;> simp [hd]
  refine ⟨hf, ?_, ?_⟩ <;> simp [verify_simulation_results, hf]

/-! ## Claim C7: verifier exit status and mismatch reporting -/

/-- Claim C7 counterexample: a log with one insert whose invoice id is
absent from the database yields `fail_count = 1`, one emitted mismatch,
and the aggregate failure line — but the process still exits with status 0
(`exit(1)` is only reached from connection/configuration errors), contrary
to the claimed non-zero exit for `failures > 0`. -/
theorem c7_counterexample :
    (verify_simulation_results
      { dirExists := true,
        files := [{ name := "simulation_a.toml", mtime := 0,
                    operations := [{ type := "insert", invoice_id := 1, total := some 10,
                                     timestamp := { ordinal := 0, usec := 0 } }] }],
        connOk := true, db := fun _ => none }).failCount = 1 ∧
    (verify_simulation_results
      { dirExists := true,
        files := [{ name := "simulation_a.toml", mtime := 0,
                    operations := [{ type := "insert", invoice_id := 1, total := some 10,
                                     timestamp := { ordinal := 0, usec := 0 } }] }],
        connOk := true, db := fun _ => none }).exitCode = 0 := by
  constructor
  · rfl
  · rfl

/-- Claim C7 (amended): when a log is found and the connection succeeds,
per-operation mismatches are accumulated without aborting the remaining
checks (every logged operation of the three partitions is checked:
successes plus failures equal the number of queries issued), each mismatch
is emitted, the full-success line is reported exactly when the failure
count is zero and the aggregate failure line otherwise — but the process
exits with status 0 whether or not failures occurred. -/
theorem c7_amended_report (env : VerifyEnv) (lf : LogEntry)
    (hfind : find_latest_log_file env.dirExists env.files = some lf)
    (hconn : env.connOk = true) :
    (verify_simulation_results env).exitCode = 0 ∧
    (verify_simulation_results env).fullSuccessReported =
      ((verify_simulation_results env).failCount == 0) ∧
    (verify_simulation_results env).failureReported =
      !((verify_simulation_results env).failCount == 0) ∧
    (verify_simulation_results env).mismatchesEmitted =
      (verify_simulation_results env).failCount ∧
    (verify_simulation_results env).successCount + (verify_simulation_results env).failCount =
      (verify_simulation_results env).dbQueries := by
  have h1 := runChecks_sum (checkInsert env.db)
    (lf.operations.filter (fun op => op.type == "insert")) 0 0
  have h2 := runChecks_sum (checkDelete env.db)
    (lf.operations.filter (fun op => op.type == "delete"))
  have h3 := runChecks_sum (checkUpdate env.db)
    (lf.operations.filter (fun op => op.type == "update"))
  simp only [verify_simulation_results, hfind, hconn, if_pos]
  refine ⟨trivial, trivial, trivial, trivial, ?_⟩
  have h2' := h2 (runChecks (checkInsert env.db)
      (lf.operations.filter (fun op => op.type == "insert")) 0 0).1
    (runChecks (checkInsert env.db)
      (lf.operations.filter (fun op => op.type == "insert")) 0 0).2
  have h3' := h3 (runChecks (checkDelete env.db)
      (lf.operations.filter (fun op => op.type == "delete"))
      (runChecks (checkInsert env.db)
        (lf.operations.filter (fun op => op.type == "insert")) 0 0).1
      (runChecks (checkInsert env.db)
        (lf.operations.filter (fun op => op.type == "insert")) 0 0).2).1
    (runChecks (checkDelete env.db)
      (lf.operations.filter (fun op => op.type == "delete"))
      (runChecks (checkInsert env.db)
        (lf.operations.filter (fun op => op.type == "insert")) 0 0).1
      (runChecks (checkInsert env.db)
        (lf.operations.filter (fun op => op.type == "insert")) 0 0).2).2
  omega

/-! ## Claim C8: the verifier's per-type checks -/

/-- Claim C8: for each logged operation the verifier applies exactly the
claimed per-type check — an insert passes iff a row with the logged id
exists whose stored total differs from the logged total by at most 0.001;
a delete passes iff no row with the logged id exists; an update passes iff
a row with the logged id still exists, with no value check. -/
theorem c8_per_type_checks (db : Int → Option Rat) (op : Operation) :
    (∀ t : Rat, op.total = some t →
      (checkInsert db op = true ↔
        ∃ s, db op.invoice_id = some s ∧ |s - t| ≤ 1/1000)) ∧
    (checkDelete db op = true ↔ db op.invoice_id = none) ∧
    (checkUpdate db op = true ↔ ∃ s, db op.invoice_id = some s) := by
  refine ⟨?_, ?_, ?_⟩
  · intro t ht
    cases hdb : db op.invoice_id with
    | none => simp [checkInsert, hdb]
    | some stored =>
      simp only [checkInsert, hdb, ht, Option.getD_some]
      by_cases hc : |stored - t| > 1/1000
      · rw [if_pos hc]
        simp only [Bool.false_eq_true, false_iff]
        rintro ⟨s, hs, habs⟩
        rw [Option.some.injEq] at hs
        subst hs
        exact absurd habs (not_le.mpr hc)
      · rw [if_neg hc]
        simp only [true_iff]
        exact ⟨stored, rfl, not_lt.mp hc⟩
  · cases hdb : db op.invoice_id with
    | none => simp [checkDelete, hdb]
    | some stored => simp [checkDelete, hdb]
  · cases hdb : db op.invoice_id with
    | none => simp [checkUpdate, hdb]
    | some stored => simp [checkUpdate, hdb]

/-! ## Claim C2: operation count in the batch result -/

/-- Claim C2 counterexample: the claim that every batch yields exactly
`num_inserts + num_updates + num_deletes` records is false — requesting
one delete while the stored function reports no eligible row (`NULL`)
produces an empty operation list: the no-op call is dropped with only a
logged warning, not retained as a null-id record. -/
theorem c2_counterexample :
    ¬ ∀ (o : BatchOracle) (todayOrdinal : Int) (nI nU nD : Nat) (ops : List Operation),
        (process_operations_batch o todayOrdinal nI nU nD).2 = .ok ops →
        ops.length = nI + nU + nD := by
  intro hclaim
  have h := hclaim
    { deleteFn := fun _ => .ok none, updateFn := fun _ => .ok none,
      insertFn := fun _ => .ok none, rand := fun _ => 0 }
    1 0 0 1 [] (by decide)
  simp at h

/-- Claim C2 (amended): a successful batch's operation list contains one
record per stored-function call that returned a truthy id (deletes and
updates) or a row (inserts); calls reporting no eligible row or returning
nothing contribute no record at all, so the list length is the number of
effective calls, which is at most — not always equal to —
`num_inserts + num_updates + num_deletes`. -/
theorem c2_amended_count (o : BatchOracle) (todayOrdinal : Int) (nI nU nD : Nat)
    (ops : List Operation)
    (h : (process_operations_batch o todayOrdinal nI nU nD).2 = .ok ops) :
    ops.length =
      countHits (fun i => callTruthy (o.deleteFn i)) nD 0 +
        countHits (fun i => callTruthy (o.updateFn i)) nU 0 +
        countHits (fun i => callReturnedRow (o.insertFn i)) nI 0 ∧
    ops.length ≤ nI + nU + nD := by
  simp only [process_operations_batch] at h
  cases hd : (_perform_deletes o.deleteFn (get_d1_date_range todayOrdinal).1 nD 0).2 with
  | error e => rw [hd] at h; simp at h
  | ok delOps =>
    rw [hd] at h
    simp only at h
    cases hu : (_perform_updates o.updateFn (get_d1_date_range todayOrdinal).1 nU 0).2 with
    | error e => rw [hu] at h; simp at h
    | ok updOps =>
      rw [hu] at h
      simp only at h
      cases hi : (_perform_inserts o.insertFn o.rand todayOrdinal nI).2 with
      | error e => rw [hi] at h; simp at h
      | ok insOps =>
        rw [hi] at h
        simp only [Except.ok.injEq] at h
        have l1 := perform_deletes_len o.deleteFn (get_d1_date_range todayOrdinal).1 nD 0
          delOps hd
        have l2 := perform_updates_len o.updateFn (get_d1_date_range todayOrdinal).1 nU 0
          updOps hu
        have l3 : insOps.length = countHits (fun j => callReturnedRow (o.insertFn j)) nI 0 := by
          simp only [_perform_inserts] at hi
          exact performInsertsLoop_len _ _ _ _ nI 0 insOps hi
        have c1 := countHits_le (fun i => callTruthy (o.deleteFn i)) nD 0
        have c2 := countHits_le (fun i => callTruthy (o.updateFn i)) nU 0
        have c3 := countHits_le (fun i => callReturnedRow (o.insertFn i)) nI 0
        constructor
        · simp [← h, l1, l2, l3]
          omega
        · simp [← h, l1, l2, l3]
          omega

/-! ## Claim C3: fixed execution and record order -/

theorem process_calls_split (o : BatchOracle) (todayOrdinal : Int) (nI nU nD : Nat) :
    ∃ cd cu ci, (process_operations_batch o todayOrdinal nI nU nD).1 = cd ++ cu ++ ci ∧
      (∀ c ∈ cd, c.isDelete = true) ∧ (∀ c ∈ cu, c.isUpdate = true) ∧
      (∀ c ∈ ci, c.isNew = true) := by
  have hD := perform_deletes_calls o.deleteFn (get_d1_date_range todayOrdinal).1 nD 0
  have hU := perform_updates_calls o.updateFn (get_d1_date_range todayOrdinal).1 nU 0
  have hI : ∀ c ∈ (_perform_inserts o.insertFn o.rand todayOrdinal nI).1, c.isNew = true := by
    intro c hc
    simp only [_perform_inserts] at hc
    exact performInsertsLoop_calls _ _ _ _ nI 0 c hc
  simp only [process_operations_batch]
  cases hd : (_perform_deletes o.deleteFn (get_d1_date_range todayOrdinal).1 nD 0).2 with
  | error e =>
    refine ⟨(_perform_deletes o.deleteFn (get_d1_date_range todayOrdinal).1 nD 0).1,
      [], [], by simp, hD, by simp, by simp⟩
  | ok delOps =>
    cases hu : (_perform_updates o.updateFn (get_d1_date_range todayOrdinal).1 nU 0).2 with
    | error e =>
      refine ⟨(_perform_deletes o.deleteFn (get_d1_date_range todayOrdinal).1 nD 0).1,
        (_perform_updates o.updateFn (get_d1_date_range todayOrdinal).1 nU 0).1,
        [], by simp, hD, hU, by simp⟩
    | ok updOps =>
      cases hi : (_perform_inserts o.insertFn o.rand todayOrdinal nI).2 with
      | error e =>
        refine ⟨(_perform_deletes o.deleteFn (get_d1_date_range todayOrdinal).1 nD 0).1,
          (_perform_updates o.updateFn (get_d1_date_range todayOrdinal).1 nU 0).1,
          (_perform_inserts o.insertFn o.rand todayOrdinal nI).1, by simp, hD, hU, hI⟩
      | ok insOps =>
        refine ⟨(_perform_deletes o.deleteFn (get_d1_date_range todayOrdinal).1 nD 0).1,
          (_perform_updates o.updateFn (get_d1_date_range todayOrdinal).1 nU 0).1,
          (_perform_inserts o.insertFn o.rand todayOrdinal nI).1, by simp, hD, hU, hI⟩

theorem process_ops_split (o : BatchOracle) (todayOrdinal : Int) (nI nU nD : Nat)
    (ops : List Operation)
    (h : (process_operations_batch o todayOrdinal nI nU nD).2 = .ok ops) :
    ∃ od ou oi, ops = od ++ ou ++ oi ∧ (∀ x ∈ od, x.type = "delete") ∧
      (∀ x ∈ ou, x.type = "update") ∧ (∀ x ∈ oi, x.type = "insert") := by
  simp only [process_operations_batch] at h
  cases hd : (_perform_deletes o.deleteFn (get_d1_date_range todayOrdinal).1 nD 0).2 with
  | error e => rw [hd] at h; simp at h
  | ok delOps =>
    rw [hd] at h
    simp only at h
    cases hu : (_perform_updates o.updateFn (get_d1_date_range todayOrdinal).1 nU 0).2 with
    | error e => rw [hu] at h; simp at h
    | ok updOps =>
      rw [hu] at h
      simp only at h
      cases hi : (_perform_inserts o.insertFn o.rand todayOrdinal nI).2 with
      | error e => rw [hi] at h; simp at h
      | ok insOps =>
        rw [hi] at h
        simp only [Except.ok.injEq] at h
        have tI : ∀ x ∈ insOps, x.type = "insert" := by
          simp only [_perform_inserts] at hi
          exact performInsertsLoop_types _ _ _ _ nI 0 insOps hi
        exact ⟨delOps, updOps, insOps, h.symm,
          perform_deletes_types o.deleteFn (get_d1_date_range todayOrdinal).1 nD 0 delOps hd,
          perform_updates_types o.updateFn (get_d1_date_range todayOrdinal).1 nU 0 updOps hu,
          tI⟩

/-- Claim C3: in every batch the stored-function calls are issued in the
fixed order deletes, then updates, then inserts, and (on success) the
operation records are likewise ordered with all delete records first,
then update records, then insert records. -/
theorem c3_fixed_order (o : BatchOracle) (todayOrdinal : Int) (nI nU nD : Nat) :
    (∃ cd cu ci, (process_operations_batch o todayOrdinal nI nU nD).1 = cd ++ cu ++ ci ∧
      (∀ c ∈ cd, c.isDelete = true) ∧ (∀ c ∈ cu, c.isUpdate = true) ∧
      (∀ c ∈ ci, c.isNew = true)) ∧
    (∀ ops, (process_operations_batch o todayOrdinal nI nU nD).2 = .ok ops →
      ∃ od ou oi, ops = od ++ ou ++ oi ∧ (∀ x ∈ od, x.type = "delete") ∧
        (∀ x ∈ ou, x.type = "update") ∧ (∀ x ∈ oi, x.type = "insert")) :=
  ⟨process_calls_split o todayOrdinal nI nU nD,
    fun ops h => process_ops_split o todayOrdinal nI nU nD ops h⟩

/-! ## Claim C1: atomic rollback on a database error in the batch -/

/-- Claim C1: if any stored-function call inside the batch raises a
database error, the run commits nothing (no commit event occurs, so the
single transaction — all deletes, updates and inserts performed so far —
is rolled back as a unit), the rollback is issued, `write_log_file` is
never invoked, and the process exits with status 1. -/
theorem c1_rollback_on_batch_error (foundFunctions foundSequences : List String)
    (o : BatchOracle) (fsOk : Bool) (st : Instant) (todayOrdinal : Int)
    (nI nU nD : Nat) (e : DbErr)
    (hval : validate_database_state foundFunctions foundSequences = .ok ())
    (herr : (process_operations_batch o todayOrdinal nI nU nD).2 = .error e) :
    (start_simulation foundFunctions foundSequences o fsOk st todayOrdinal nI nU nD).exitCode
        = 1 ∧
    RunEvent.rollback ∈
      (start_simulation foundFunctions foundSequences o fsOk st todayOrdinal nI nU nD).events ∧
    (start_simulation foundFunctions foundSequences o fsOk st todayOrdinal
        nI nU nD).events.countP RunEvent.isCommit = 0 ∧
    (start_simulation foundFunctions foundSequences o fsOk st todayOrdinal
        nI nU nD).events.countP RunEvent.isLogWrite = 0 := by
  simp only [start_simulation, hval]
  cases hb : (process_operations_batch o todayOrdinal nI nU nD).2 with
  | error e2 =>
    refine ⟨rfl, by simp, ?_, ?_⟩
    · rw [List.countP_append, List.countP_map]
      simp [List.countP_eq_zero, Function.comp, RunEvent.isCommit, List.countP_cons]
    · rw [List.countP_append, List.countP_map]
      simp [List.countP_eq_zero, Function.comp, RunEvent.isLogWrite, List.countP_cons]
  | ok ops =>
    rw [hb] at herr
    simp at herr

/-! ## Claim C9: the log writer runs exactly once, after commit -/

/-- Claim C9: on every successful run the log-write is invoked exactly
once, strictly after the commit (the event trace ends with the commit
followed by the single log-write, and no earlier event is a commit or a
log-write), with the file name the fixed function `logFilename` of the
run-start instant; on a run whose batch raised (rolled back) the
log-write is never invoked. -/
theorem c9_log_once_after_commit :
    (∀ (fF fS : List String) (o : BatchOracle) (fsOk : Bool) (st : Instant)
        (todayOrdinal : Int) (nI nU nD : Nat) (ops : List Operation),
      validate_database_state fF fS = .ok () →
      (process_operations_batch o todayOrdinal nI nU nD).2 = .ok ops →
      ∃ pre,
        (start_simulation fF fS o fsOk st todayOrdinal nI nU nD).events =
          pre ++ [RunEvent.commit,
            RunEvent.logWriteAttempt (logFilename st)
              (write_log_file fsOk st ops
                ((get_d1_date_range todayOrdinal).1.ordinal)).isSome] ∧
        ∀ ev ∈ pre, ev.isCommit = false ∧ ev.isLogWrite = false) ∧
    (∀ (fF fS : List String) (o : BatchOracle) (fsOk : Bool) (st : Instant)
        (todayOrdinal : Int) (nI nU nD : Nat) (e : DbErr),
      (process_operations_batch o todayOrdinal nI nU nD).2 = .error e →
      (start_simulation fF fS o fsOk st todayOrdinal nI nU nD).events.countP
        RunEvent.isLogWrite = 0) := by
  constructor
  · intro fF fS o fsOk st todayOrdinal nI nU nD ops hval hok
    simp only [start_simulation, hval]
    cases hb : (process_operations_batch o todayOrdinal nI nU nD).2 with
    | error e2 =>
      rw [hb] at hok
      simp at hok
    | ok ops2 =>
      rw [hb] at hok
      simp only [Except.ok.injEq] at hok
      subst hok
      refine ⟨(process_operations_batch o todayOrdinal nI nU nD).1.map RunEvent.dbCall, ?_, ?_⟩
      · simp
      · intro ev hev
        rcases List.mem_map.mp hev with ⟨c, _, hc⟩
        rw [← hc]
        exact ⟨rfl, rfl⟩
  · intro fF fS o fsOk st todayOrdinal nI nU nD e herr
    cases hv : validate_database_state fF fS with
    | error ve => simp [start_simulation, hv]
    | ok u =>
      cases u
      simp only [start_simulation, hv]
      cases hb : (process_operations_batch o todayOrdinal nI nU nD).2 with
      | error e2 =>
        rw [List.countP_append, List.countP_map]
        simp [List.countP_eq_zero, Function.comp, RunEvent.isLogWrite, List.countP_cons]
      | ok ops =>
        rw [hb] at herr
        simp at herr

/-! ## Claim C10: a failed log write is swallowed after commit -/

/-- Claim C10: when the post-commit log write raises, `write_log_file`
catches the exception and returns normally with no artifact produced, so
the run still exits with status 0; the commit has already happened (the
commit event is in the trace, the failed write attempt follows it), so
the committed database changes are unaffected. -/
theorem c10_swallowed_write_failure (fF fS : List String) (o : BatchOracle)
    (st : Instant) (todayOrdinal : Int) (nI nU nD : Nat) (ops : List Operation)
    (hval : validate_database_state fF fS = .ok ())
    (hok : (process_operations_batch o todayOrdinal nI nU nD).2 = .ok ops) :
    write_log_file false st ops ((get_d1_date_range todayOrdinal).1.ordinal) = none ∧
    (start_simulation fF fS o false st todayOrdinal nI nU nD).exitCode = 0 ∧
    RunEvent.commit ∈ (start_simulation fF fS o false st todayOrdinal nI nU nD).events ∧
    RunEvent.logWriteAttempt (logFilename st) false ∈
      (start_simulation fF fS o false st todayOrdinal nI nU nD).events := by
  refine ⟨rfl, ?_, ?_, ?_⟩
  · simp only [start_simulation, hval]
    cases hb : (process_operations_batch o todayOrdinal nI nU nD).2 with
    | error e2 =>
      rw [hb] at hok
      simp at hok
    | ok ops2 =>
      simp [write_log_file, tryWriteFile]
  · simp only [start_simulation, hval]
    cases hb : (process_operations_batch o todayOrdinal nI nU nD).2 with
    | error e2 =>
      rw [hb] at hok
      simp at hok
    | ok ops2 =>
      simp [write_log_file, tryWriteFile]
  · simp only [start_simulation, hval]
    cases hb : (process_operations_batch o todayOrdinal nI nU nD).2 with
    | error e2 =>
      rw [hb] at hok
      simp at hok
    | ok ops2 =>
      simp [write_log_file, tryWriteFile]

/-! ## Witnesses: the claim theorems applied at concrete inputs -/

/-- Witness for C1 at Scenario D: the stored function raises on the 3rd
insert; the run rolls back, commits nothing, writes no log, exits 1. -/
theorem c1_witness :
    validate_database_state requiredFunctions goodSequences = .ok () ∧
    (process_operations_batch scenarioDOracle 1 5 1 1).2 = .error { msg := "db error" } ∧
    ((start_simulation requiredFunctions goodSequences scenarioDOracle true demoInstant
        1 5 1 1).exitCode = 1 ∧
      RunEvent.rollback ∈
        (start_simulation requiredFunctions goodSequences scenarioDOracle true demoInstant
          1 5 1 1).events ∧
      (start_simulation requiredFunctions goodSequences scenarioDOracle true demoInstant
        1 5 1 1).events.countP RunEvent.isCommit = 0 ∧
      (start_simulation requiredFunctions goodSequences scenarioDOracle true demoInstant
        1 5 1 1).events.countP RunEvent.isLogWrite = 0) :=
  ⟨by decide, by decide,
    c1_rollback_on_batch_error requiredFunctions goodSequences scenarioDOracle true
      demoInstant 1 5 1 1 { msg := "db error" } (by decide) (by decide)⟩

/-- Witness for the amended C2 at a batch whose update call is a no-op:
two records for three requested operations. -/
theorem c2_witness :
    (process_operations_batch mixedOracle 1 1 1 1).2 = .ok demoMixedOps ∧
    (demoMixedOps.length =
      countHits (fun i => callTruthy (mixedOracle.deleteFn i)) 1 0 +
        countHits (fun i => callTruthy (mixedOracle.updateFn i)) 1 0 +
        countHits (fun i => callReturnedRow (mixedOracle.insertFn i)) 1 0 ∧
      demoMixedOps.length ≤ 1 + 1 + 1) :=
  ⟨by decide, c2_amended_count mixedOracle 1 1 1 1 demoMixedOps (by decide)⟩

/-- Witness for C3 at a concrete successful batch. -/
theorem c3_witness :
    (process_operations_batch allOkOracle 1 1 1 1).2 = .ok demoOps ∧
    (∃ od ou oi, demoOps = od ++ ou ++ oi ∧ (∀ x ∈ od, x.type = "delete") ∧
      (∀ x ∈ ou, x.type = "update") ∧ (∀ x ∈ oi, x.type = "insert")) :=
  ⟨by decide, (c3_fixed_order allOkOracle 1 1 1 1).2 demoOps (by decide)⟩

/-- Witness for the amended C5 at a catalog missing one function. -/
theorem c5_witness :
    validate_database_state missingOneFn goodSequences =
      .error (ValidationError.missingFunctions ["simulate_delete_sale"]) ∧
    "simulate_delete_sale" ∈
      namedObjects (ValidationError.missingFunctions ["simulate_delete_sale"]) ∧
    ((start_simulation missingOneFn goodSequences allOkOracle true demoInstant
        1 0 0 0).events = [] ∧
      (start_simulation missingOneFn goodSequences allOkOracle true demoInstant
        1 0 0 0).exitCode = 1) :=
  ⟨by decide,
    ((c5_amended_validator missingOneFn goodSequences).2.1
      (ValidationError.missingFunctions ["simulate_delete_sale"]) (by decide)).1
      "simulate_delete_sale" (by decide) (by decide),
    (c5_amended_validator missingOneFn goodSequences).2.2 allOkOracle true demoInstant
      1 0 0 0 (ValidationError.missingFunctions ["simulate_delete_sale"]) (by decide)⟩

/-- Witness for the amended C6 at an environment with no log directory. -/
theorem c6_witness :
    (noLogEnv.dirExists = false ∨ noLogEnv.files = []) ∧
    (find_latest_log_file noLogEnv.dirExists noLogEnv.files = none ∧
      (verify_simulation_results noLogEnv).exitCode = 0 ∧
      (verify_simulation_results noLogEnv).dbQueries = 0) :=
  ⟨Or.inl rfl, c6_amended_no_log noLogEnv (Or.inl rfl)⟩

/-- Witness for the amended C7 at an environment whose database matches
the log. -/
theorem c7_witness :
    find_latest_log_file passEnv.dirExists passEnv.files = some demoLogEntry ∧
    passEnv.connOk = true ∧
    ((verify_simulation_results passEnv).exitCode = 0 ∧
      (verify_simulation_results passEnv).fullSuccessReported =
        ((verify_simulation_results passEnv).failCount == 0) ∧
      (verify_simulation_results passEnv).failureReported =
        !((verify_simulation_results passEnv).failCount == 0) ∧
      (verify_simulation_results passEnv).mismatchesEmitted =
        (verify_simulation_results passEnv).failCount ∧
      (verify_simulation_results passEnv).successCount +
          (verify_simulation_results passEnv).failCount =
        (verify_simulation_results passEnv).dbQueries) :=
  ⟨by decide, rfl, c7_amended_report passEnv demoLogEntry (by decide) rfl⟩

/-- Witness for C8 at a logged insert with total 10 and a matching row. -/
theorem c8_witness :
    demoInsertOp.total = some 10 ∧
    (checkInsert (fun _ => some 10) demoInsertOp = true ↔
      ∃ s, (some 10 : Option Rat) = some s ∧ |s - 10| ≤ 1/1000) :=
  ⟨rfl, (c8_per_type_checks (fun _ => some 10) demoInsertOp).1 10 rfl⟩

/-- Witness for C9 at a concrete successful run. -/
theorem c9_witness :
    validate_database_state requiredFunctions goodSequences = .ok () ∧
    (process_operations_batch allOkOracle 1 1 1 1).2 = .ok demoOps ∧
    (∃ pre,
      (start_simulation requiredFunctions goodSequences allOkOracle true demoInstant
          1 1 1 1).events =
        pre ++ [RunEvent.commit,
          RunEvent.logWriteAttempt (logFilename demoInstant)
            (write_log_file true demoInstant demoOps
              ((get_d1_date_range 1).1.ordinal)).isSome] ∧
      ∀ ev ∈ pre, ev.isCommit = false ∧ ev.isLogWrite = false) :=
  ⟨by decide, by decide,
    c9_log_once_after_commit.1 requiredFunctions goodSequences allOkOracle true
      demoInstant 1 1 1 1 demoOps (by decide) (by decide)⟩

/-- Witness for C10 at a concrete run whose log write fails. -/
theorem c10_witness :
    validate_database_state requiredFunctions goodSequences = .ok () ∧
    (process_operations_batch allOkOracle 1 1 1 1).2 = .ok demoOps ∧
    (write_log_file false demoInstant demoOps ((get_d1_date_range 1).1.ordinal) = none ∧
      (start_simulation requiredFunctions goodSequences allOkOracle false demoInstant
        1 1 1 1).exitCode = 0 ∧
      RunEvent.commit ∈
        (start_simulation requiredFunctions goodSequences allOkOracle false demoInstant
          1 1 1 1).events ∧
      RunEvent.logWriteAttempt (logFilename demoInstant) false ∈
        (start_simulation requiredFunctions goodSequences allOkOracle false demoInstant
          1 1 1 1).events) :=
  ⟨by decide, by decide,
    c10_swallowed_write_failure requiredFunctions goodSequences allOkOracle demoInstant
      1 1 1 1 demoOps (by decide) (by decide)⟩

end D1Sim
